import Mathlib

/-!
Shallow embedding of the voxel sculpting engine of this repository
(src/src/utils/voxel-utils.ts and src/src/workers/worker.ts):
the dense voxel grid owned by the worker state, the surface mesher
that walks the grid and emits one quad per visible face, the scene
synchronizer that swaps the single renderable mesh, and the script
runner that evaluates the user function draw(x, y, z, gridSize)
over every cell.

Numbers pushed into the mesh buffers are modelled as rationals;
JavaScript string-or-null cell values are modelled as Option String,
and JavaScript truthiness of such a value (null and the empty string
are falsy) is made explicit as jsTruthy.  The external color parser
(THREE.Color together with the try/catch that substitutes green) is
total from the point of view of the mesher and is passed in as an
opaque resolve function.
-/

namespace Voxel

/-- Values returned by the embedded interpreter to the runner, as the
runner discriminates them: strings, booleans, numbers, null and
undefined. -/
inductive JSValue where
  | vstr (s : String)
  | vbool (b : Bool)
  | vnum (n : Int)
  | vnull
  | vundefined
deriving DecidableEq, Repr

/-- Worker-side mutable state, as in worker.ts: the grid size, the
dense voxel array (string-or-null per cell, absent while not yet
initialized), the scene graph restricted to the voxel mesh nodes it
holds (absent while not yet initialized), the tracked voxel mesh
handle, and a source of fresh node identifiers for newly created
meshes. -/
structure WorkerState where
  gridSize : Nat
  voxelData : Option (Nat → Nat → Nat → Option String)
  scene : Option (List Nat)
  voxelMesh : Option Nat
  nextId : Nat

/-- Truthiness of a JavaScript string-or-null value: null is falsy and
so is the empty string. -/
def jsTruthy : Option String → Bool
  | none => false
  | some s => !(s == "")

/-- Embedding of getVoxelColor (voxel-utils.ts lines 17-23): returns
null when the voxel data is not initialized or any coordinate is
outside the cube, otherwise the stored value. -/
def getVoxelColor (st : WorkerState) (x y z : Int) : Option String :=
  match st.voxelData with
  | none => none
  | some d =>
    if x < 0 || x ≥ (st.gridSize : Int) || y < 0 || y ≥ (st.gridSize : Int)
        || z < 0 || z ≥ (st.gridSize : Int) then
      none
    else
      d x.toNat y.toNat z.toNat

/-- One entry of the VoxelFaces table: an axis direction and the four
corner offsets of the quad facing that direction. -/
structure VoxelFace where
  dir : Int × Int × Int
  corners : List (ℚ × ℚ × ℚ)
deriving DecidableEq, Repr

/-- Embedding of the VoxelFaces table (voxel-utils.ts lines 5-12). -/
def VoxelFaces : List VoxelFace :=
  [ ⟨(-1, 0, 0), [(0, 1, 0), (0, 0, 0), (0, 1, 1), (0, 0, 1)]⟩,
    ⟨(1, 0, 0), [(1, 1, 1), (1, 0, 1), (1, 1, 0), (1, 0, 0)]⟩,
    ⟨(0, -1, 0), [(1, 0, 1), (0, 0, 1), (1, 0, 0), (0, 0, 0)]⟩,
    ⟨(0, 1, 0), [(0, 1, 1), (1, 1, 1), (0, 1, 0), (1, 1, 0)]⟩,
    ⟨(0, 0, -1), [(1, 0, 0), (0, 0, 0), (1, 1, 0), (0, 1, 0)]⟩,
    ⟨(0, 0, 1), [(0, 0, 1), (1, 0, 1), (0, 1, 1), (1, 1, 1)]⟩ ]

/-- The flat geometry buffer built by the mesher: positions, normals
and per-vertex colors as flat float lists, plus the triangle index
list. -/
structure GeomBuf where
  positions : List ℚ
  normals : List ℚ
  colors : List ℚ
  indices : List Nat
deriving DecidableEq, Repr

/-- The empty geometry buffer. -/
def GeomBuf.empty : GeomBuf := ⟨[], [], [], []⟩

/-- Offset subtracted from every raw coordinate so the grid is
centered at the origin: gridSize / 2 - 0.5. -/
def centerOffset (g : Nat) : ℚ := (g : ℚ) / 2 - 1 / 2

/-- Appends one quad to the buffer, as the inner corner loop of
generateVoxelGeometry does: four vertices, each with position offset
to center the grid, the face normal and the resolved cell color,
followed by the six indices of the two triangles. -/
def pushFace (col : ℚ × ℚ × ℚ) (off : ℚ) (x y z : Nat) (f : VoxelFace)
    (b : GeomBuf) : GeomBuf :=
  let ndx := b.positions.length / 3
  { positions := b.positions ++
      f.corners.flatMap fun c => [c.1 + (x : ℚ) - off, c.2.1 + (y : ℚ) - off, c.2.2 + (z : ℚ) - off],
    normals := b.normals ++
      f.corners.flatMap fun _ => [(f.dir.1 : ℚ), (f.dir.2.1 : ℚ), (f.dir.2.2 : ℚ)],
    colors := b.colors ++
      f.corners.flatMap fun _ => [col.1, col.2.1, col.2.2],
    indices := b.indices ++ [ndx, ndx + 1, ndx + 2, ndx + 2, ndx + 1, ndx + 3] }

/-- Per-cell body of generateVoxelGeometry (voxel-utils.ts lines
45-68): when the cell value is truthy, resolve its color and, for each
of the six faces whose neighbor reads falsy, push the quad. -/
def processCell (resolve : String → ℚ × ℚ × ℚ) (st : WorkerState)
    (x y z : Nat) (b : GeomBuf) : GeomBuf :=
  let voxelColorStr := getVoxelColor st x y z
  if jsTruthy voxelColorStr then
    let col := resolve (voxelColorStr.getD "")
    VoxelFaces.foldl
      (fun b f =>
        let neighborColor :=
          getVoxelColor st ((x : Int) + f.dir.1) ((y : Int) + f.dir.2.1) ((z : Int) + f.dir.2.2)
        if jsTruthy neighborColor then b
        else pushFace col (centerOffset st.gridSize) x y z f b)
      b
  else b

/-- Cell enumeration order of generateVoxelGeometry: y outer, then z,
then x. -/
def meshCoords (g : Nat) : List (Nat × Nat × Nat) :=
  (List.range g).flatMap fun y =>
    (List.range g).flatMap fun z =>
      (List.range g).map fun x => (x, y, z)

/-- The triple loop of generateVoxelGeometry, folding the per-cell
body over every cell of the cube in the fixed y-z-x order. -/
def voxelGeometryCore (resolve : String → ℚ × ℚ × ℚ) (st : WorkerState) : GeomBuf :=
  (meshCoords st.gridSize).foldl
    (fun b c => processCell resolve st c.1 c.2.1 c.2.2 b) GeomBuf.empty

/-- Embedding of generateVoxelGeometry (voxel-utils.ts lines 28-87):
throws when the voxel data is not initialized, otherwise builds the
buffer by the triple loop. -/
def generateVoxelGeometry (resolve : String → ℚ × ℚ × ℚ) (st : WorkerState) :
    Except String GeomBuf :=
  match st.voxelData with
  | none => .error "Voxel data not initialized"
  | some _ => .ok (voxelGeometryCore resolve st)

/-- Derived description of the mesher output: the faces the cell at
(x, y, z) contributes, namely all six directions whose neighbor reads
falsy when the cell itself reads truthy, and none otherwise. -/
def cellFaces (st : WorkerState) (x y z : Nat) : List VoxelFace :=
  if jsTruthy (getVoxelColor st x y z) then
    VoxelFaces.filter fun f =>
      !jsTruthy (getVoxelColor st ((x : Int) + f.dir.1) ((y : Int) + f.dir.2.1)
        ((z : Int) + f.dir.2.2))
  else []

/-- Derived description of the mesher output: every (cell, face) pair
emitted over the whole grid, in emission order. -/
def emittedPairs (st : WorkerState) : List ((Nat × Nat × Nat) × VoxelFace) :=
  (meshCoords st.gridSize).flatMap fun c =>
    (cellFaces st c.1 c.2.1 c.2.2).map fun f => (c, f)

/-- Resource events performed by updateVoxelMesh on the scene graph
and on geometry/material resources, in program order. -/
inductive MeshEvent where
  | removeFromScene (id : Nat)
  | disposeGeometry (id : Nat)
  | disposeMaterial (id : Nat)
  | createGeometry (id : Nat)
  | createMaterial (id : Nat)
  | addToScene (id : Nat)
  | disposeEmptyGeometry (id : Nat)
deriving DecidableEq, Repr

/-- Embedding of updateVoxelMesh (voxel-utils.ts lines 92-120, same
body at worker.ts lines 870-899): when the scene is initialized, first
remove and dispose the tracked mesh if any, then generate the new
geometry (an exception from generateVoxelGeometry propagates), and
install a new mesh only when the index list is nonempty, otherwise
dispose the fresh empty geometry and leave no handle.  Returns the
updated state together with the list of resource events in the order
they were performed. -/
def updateVoxelMesh (resolve : String → ℚ × ℚ × ℚ) (st : WorkerState) :
    Except String (WorkerState × List MeshEvent) :=
  match st.scene with
  | none => .ok (st, [])
  | some sceneNodes =>
    let removed :=
      match st.voxelMesh with
      | some m =>
        (sceneNodes.erase m,
         [MeshEvent.removeFromScene m, MeshEvent.disposeGeometry m,
          MeshEvent.disposeMaterial m])
      | none => (sceneNodes, [])
    let st1 : WorkerState :=
      { st with scene := some removed.1, voxelMesh := none }
    match generateVoxelGeometry resolve st1 with
    | .error e => .error e
    | .ok geometry =>
      let newId := st1.nextId
      if geometry.indices.length > 0 then
        .ok ({ st1 with
                scene := some (removed.1 ++ [newId]),
                voxelMesh := some newId, nextId := newId + 1 },
             removed.2 ++
               [MeshEvent.createGeometry newId, MeshEvent.createMaterial newId,
                MeshEvent.addToScene newId])
      else
        .ok ({ st1 with nextId := newId + 1 },
             removed.2 ++
               [MeshEvent.createGeometry newId, MeshEvent.disposeEmptyGeometry newId])

/-- The external scripting interpreter, an opaque collaborator: parse
fails with a syntax error on malformed source, and eval invokes the
draw entry point of a parsed script at one cell (passing x, y, z and
the grid size) and may fail with a runtime error for that cell
only. -/
structure Interpreter (Ast : Type) where
  parse : String → Except String Ast
  eval : Ast → Nat → Nat → Nat → Nat → Except String JSValue

/-- The value the runner stores into a cell for a given eval result
(worker.ts lines 1028-1037): a string verbatim, the default green
token for the boolean true, and null for everything else. -/
def cellValue : JSValue → Option String
  | .vstr s => some s
  | .vbool true => some "#00ff00"
  | _ => none

/-- Pointwise update of the dense voxel array at one cell. -/
def writeCell (d : Nat → Nat → Nat → Option String) (x y z : Nat)
    (v : Option String) : Nat → Nat → Nat → Option String :=
  fun a b c => if a = x ∧ b = y ∧ c = z then v else d a b c

/-- The reset loop at the start of runPythonCode (worker.ts lines
1005-1011): every in-bounds cell is set to null. -/
def resetGrid (g : Nat) (d : Nat → Nat → Nat → Option String) :
    Nat → Nat → Nat → Option String :=
  fun a b c => if a < g ∧ b < g ∧ c < g then none else d a b c

/-- Cell enumeration order of the eval loop of runPythonCode: x outer,
then y, then z. -/
def runCoords (g : Nat) : List (Nat × Nat × Nat) :=
  (List.range g).flatMap fun x =>
    (List.range g).flatMap fun y =>
      (List.range g).map fun z => (x, y, z)

/-- The warning message posted for a failed cell evaluation
(worker.ts line 1043). -/
def warnMsg (x y z : Nat) (e : String) : String :=
  "Code evaluation error at (" ++ toString x ++ "," ++ toString y ++ ","
    ++ toString z ++ "): " ++ e

/-- One step of the eval loop (worker.ts lines 1024-1045): evaluate
draw at the cell; on success store the mapped value, on an exception
store null and append the warning. -/
def evalCellStep {Ast : Type} (I : Interpreter Ast) (ast : Ast) (g : Nat)
    (acc : (Nat → Nat → Nat → Option String) × List String)
    (c : Nat × Nat × Nat) : (Nat → Nat → Nat → Option String) × List String :=
  match I.eval ast c.1 c.2.1 c.2.2 g with
  | .ok v => (writeCell acc.1 c.1 c.2.1 c.2.2 (cellValue v), acc.2)
  | .error e => (writeCell acc.1 c.1 c.2.1 c.2.2 none,
                 acc.2 ++ [warnMsg c.1 c.2.1 c.2.2 e])

/-- Observable outcome of one runPythonCode call: the final worker
state, the warning messages posted for failed cells, whether
updateVoxelMesh was invoked, and the final success or error
message. -/
structure RunOutput where
  state : WorkerState
  warnings : List String
  meshUpdated : Bool
  result : Except String Unit

/-- Embedding of runPythonCode (worker.ts lines 995-1064): check
initialization, reset every cell to null, parse once (a syntax error
aborts the run and is reported as a fatal failure by the outer catch,
with the mesh never rebuilt), evaluate draw at every cell with
per-cell exceptions caught as warnings, then rebuild the mesh once and
report success. -/
def runPythonCode {Ast : Type} (resolve : String → ℚ × ℚ × ℚ)
    (interp : Option (Interpreter Ast)) (code : String) (st : WorkerState) :
    RunOutput :=
  match interp, st.scene, st.voxelData with
  | some I, some _, some d =>
    let d0 := resetGrid st.gridSize d
    match I.parse code with
    | .error e =>
      { state := { st with voxelData := some d0 }, warnings := [],
        meshUpdated := false,
        result := .error ("Code execution failed: " ++ e) }
    | .ok ast =>
      let evald := (runCoords st.gridSize).foldl (evalCellStep I ast st.gridSize) (d0, [])
      let st1 : WorkerState := { st with voxelData := some evald.1 }
      match updateVoxelMesh resolve st1 with
      | .error e =>
        { state := st1, warnings := evald.2, meshUpdated := true,
          result := .error ("Code execution failed: " ++ e) }
      | .ok (st2, _) =>
        { state := st2, warnings := evald.2, meshUpdated := true,
          result := .ok () }
  | _, _, _ =>
    { state := st, warnings := [], meshUpdated := false,
      result := .error "Code execution failed: Interpreter, scene, or voxelData not initialized" }

/-! General list helpers used by the development. -/

theorem foldl_filter_eq {α β : Type} (p : α → Bool) (f : β → α → β)
    (L : List α) (b : β) :
    (L.filter p).foldl f b = L.foldl (fun x a => if p a then f x a else x) b := by
  induction L generalizing b with
  | nil => rfl
  | cons a L ih =>
    by_cases h : p a
    · simp [List.filter_cons, h, ih]
    · simp [List.filter_cons, h, ih]

theorem foldl_flatMap_eq {α β γ : Type} (g : α → List β) (f : γ → β → γ)
    (L : List α) (b : γ) :
    (L.flatMap g).foldl f b = L.foldl (fun x a => (g a).foldl f x) b := by
  induction L generalizing b with
  | nil => rfl
  | cons a L ih => simp [List.flatMap_cons, List.foldl_append, ih]

theorem flatMap_eq_nil_of_forall {α β : Type} {L : List α} {g : α → List β}
    (h : ∀ a ∈ L, g a = []) : L.flatMap g = [] := by
  induction L with
  | nil => rfl
  | cons a L ih =>
    simp only [List.flatMap_cons, h a (by simp)]
    simpa using ih fun a ha => h a (by simp [ha])

theorem flatMap_length_single {α β : Type} [DecidableEq α] {L : List α}
    {g : α → List β} {c : α} (hnd : L.Nodup) (hmem : c ∈ L)
    (h2 : ∀ a ∈ L, a ≠ c → g a = []) :
    (L.flatMap g).length = (g c).length := by
  induction L with
  | nil => simp at hmem
  | cons a L ih =>
    by_cases hac : a = c
    · subst hac
      have hnot : a ∉ L := (List.nodup_cons.mp hnd).1
      have : L.flatMap g = [] :=
        flatMap_eq_nil_of_forall fun b hb =>
          h2 b (by simp [hb]) fun hba => hnot (hba ▸ hb)
      simp [List.flatMap_cons, this]
    · have hga : g a = [] := h2 a (by simp) hac
      have hmem' : c ∈ L := by
        rcases List.mem_cons.mp hmem with h | h
        · exact absurd h.symm hac
        · exact h
      simp only [List.flatMap_cons, hga, List.nil_append]
      exact ih (List.nodup_cons.mp hnd).2 hmem' fun b hb => h2 b (by simp [hb])

/-! Structural lemmas about the mesher. -/

/-- Membership in the mesher cell enumeration is exactly being in
bounds. -/
theorem mem_meshCoords {g : Nat} {c : Nat × Nat × Nat} :
    c ∈ meshCoords g ↔ c.1 < g ∧ c.2.1 < g ∧ c.2.2 < g := by
  obtain ⟨x, y, z⟩ := c
  simp only [meshCoords, List.mem_flatMap, List.mem_map, List.mem_range]
  constructor
  · rintro ⟨y', hy', z', hz', x', hx', h⟩
    cases h
    exact ⟨hx', hy', hz'⟩
  · rintro ⟨hx, hy, hz⟩
    exact ⟨y, hy, z, hz, x, hx, rfl⟩

/-- The mesher cell enumeration is the triple product of ranges,
reordered to the (x, y, z) tuple convention. -/
theorem meshCoords_eq_product (g : Nat) :
    meshCoords g =
      ((List.range g) ×ˢ ((List.range g) ×ˢ (List.range g))).map
        fun t => (t.2.2, t.1, t.2.1) := by
  simp only [meshCoords, List.product, SProd.sprod, List.map_flatMap, List.flatMap_map,
    List.map_map, Function.comp]
  rfl

/-- The mesher cell enumeration has no duplicates. -/
theorem meshCoords_nodup (g : Nat) : (meshCoords g).Nodup := by
  rw [meshCoords_eq_product]
  refine List.Nodup.map ?_ ?_
  · rintro ⟨y, z, x⟩ ⟨y', z', x'⟩ h
    simp only [Prod.mk.injEq] at h
    obtain ⟨h1, h2, h3⟩ := h
    simp [h1, h2, h3]
  · exact ((List.nodup_range g).product ((List.nodup_range g).product (List.nodup_range g)))

theorem foldl_congr_fn {α β : Type} {f g : β → α → β} {L : List α} {b : β}
    (h : ∀ x a, a ∈ L → f x a = g x a) : L.foldl f b = L.foldl g b := by
  induction L generalizing b with
  | nil => rfl
  | cons a L ih =>
    simp only [List.foldl_cons]
    rw [h b a (by simp)]
    exact ih fun x a' ha' => h x a' (by simp [ha'])

/-- The face push step performed for the pair of a cell and one of its
emitted faces. -/
def pushPair (resolve : String → ℚ × ℚ × ℚ) (st : WorkerState)
    (b : GeomBuf) (p : (Nat × Nat × Nat) × VoxelFace) : GeomBuf :=
  pushFace (resolve ((getVoxelColor st p.1.1 p.1.2.1 p.1.2.2).getD ""))
    (centerOffset st.gridSize) p.1.1 p.1.2.1 p.1.2.2 p.2 b

/-- The per-cell body equals folding the push step over the faces the
cell contributes. -/
theorem processCell_eq_cellFaces (resolve : String → ℚ × ℚ × ℚ)
    (st : WorkerState) (x y z : Nat) (b : GeomBuf) :
    processCell resolve st x y z b =
      (cellFaces st x y z).foldl (fun b f => pushPair resolve st b ((x, y, z), f)) b := by
  unfold processCell cellFaces
  by_cases h : jsTruthy (getVoxelColor st x y z)
  · simp only [h, if_true, foldl_filter_eq]
    refine foldl_congr_fn ?_
    intro acc f _
    by_cases hn : jsTruthy (getVoxelColor st ((x : Int) + f.dir.1) ((y : Int) + f.dir.2.1)
        ((z : Int) + f.dir.2.2))
    · simp [hn, pushPair]
    · simp [hn, pushPair]
  · simp [h]

/-- The mesher triple loop equals folding the push step over the full
emitted pair list. -/
theorem voxelGeometryCore_eq_pairs (resolve : String → ℚ × ℚ × ℚ)
    (st : WorkerState) :
    voxelGeometryCore resolve st =
      (emittedPairs st).foldl (pushPair resolve st) GeomBuf.empty := by
  unfold voxelGeometryCore emittedPairs
  rw [foldl_flatMap_eq]
  refine foldl_congr_fn ?_
  intro b c _
  rw [List.foldl_map, processCell_eq_cellFaces]

/-- Every face of the VoxelFaces table has exactly four corners. -/
theorem corners_length_of_mem {f : VoxelFace} (h : f ∈ VoxelFaces) :
    f.corners.length = 4 := by
  fin_cases h <;> rfl

/-- Every face emitted by a cell comes from the VoxelFaces table. -/
theorem cellFaces_subset {st : WorkerState} {x y z : Nat} {f : VoxelFace}
    (h : f ∈ cellFaces st x y z) : f ∈ VoxelFaces := by
  unfold cellFaces at h
  by_cases ht : jsTruthy (getVoxelColor st x y z)
  · rw [if_pos ht] at h
    exact (List.mem_filter.mp h).1
  · rw [if_neg ht] at h
    simp at h

theorem flatMap_triple_length {α : Type} (l : List α) (f g h : α → ℚ) :
    (l.flatMap fun c => [f c, g c, h c]).length = 3 * l.length := by
  induction l with
  | nil => rfl
  | cons a l ih => simp [List.flatMap_cons, ih]; omega

/-- Buffer growth of a single face push: four vertices and six
indices. -/
theorem pushFace_lengths (col : ℚ × ℚ × ℚ) (off : ℚ) (x y z : Nat)
    (f : VoxelFace) (b : GeomBuf) (hc : f.corners.length = 4) :
    (pushFace col off x y z f b).positions.length = b.positions.length + 12 ∧
    (pushFace col off x y z f b).normals.length = b.normals.length + 12 ∧
    (pushFace col off x y z f b).colors.length = b.colors.length + 12 ∧
    (pushFace col off x y z f b).indices.length = b.indices.length + 6 := by
  refine ⟨?_, ?_, ?_, ?_⟩ <;>
    simp only [pushFace, List.length_append, flatMap_triple_length, hc,
      List.length_cons, List.length_nil]

/-- Buffer growth over a list of emitted pairs. -/
theorem foldl_pushPair_lengths (resolve : String → ℚ × ℚ × ℚ)
    (st : WorkerState) (pairs : List ((Nat × Nat × Nat) × VoxelFace))
    (b : GeomBuf) (h : ∀ p ∈ pairs, p.2.corners.length = 4) :
    (pairs.foldl (pushPair resolve st) b).positions.length
        = b.positions.length + 12 * pairs.length ∧
    (pairs.foldl (pushPair resolve st) b).normals.length
        = b.normals.length + 12 * pairs.length ∧
    (pairs.foldl (pushPair resolve st) b).colors.length
        = b.colors.length + 12 * pairs.length ∧
    (pairs.foldl (pushPair resolve st) b).indices.length
        = b.indices.length + 6 * pairs.length := by
  induction pairs generalizing b with
  | nil => simp
  | cons p pairs ih =>
    have hp := pushFace_lengths (resolve ((getVoxelColor st p.1.1 p.1.2.1 p.1.2.2).getD ""))
      (centerOffset st.gridSize) p.1.1 p.1.2.1 p.1.2.2 p.2 b (h p (by simp))
    have ihp := ih (pushPair resolve st b p) fun q hq => h q (by simp [hq])
    simp only [List.foldl_cons, List.length_cons]
    refine ⟨?_, ?_, ?_, ?_⟩
    · rw [ihp.1]; rw [show pushPair resolve st b p = pushFace _ _ _ _ _ _ b from rfl, hp.1]; omega
    · rw [ihp.2.1]; rw [show pushPair resolve st b p = pushFace _ _ _ _ _ _ b from rfl, hp.2.1]; omega
    · rw [ihp.2.2.1]; rw [show pushPair resolve st b p = pushFace _ _ _ _ _ _ b from rfl, hp.2.2.1]; omega
    · rw [ihp.2.2.2]; rw [show pushPair resolve st b p = pushFace _ _ _ _ _ _ b from rfl, hp.2.2.2]; omega

/-- Every pair in the emitted pair list carries a face of the
VoxelFaces table. -/
theorem emittedPairs_faces {st : WorkerState} {p : (Nat × Nat × Nat) × VoxelFace}
    (h : p ∈ emittedPairs st) : p.2 ∈ VoxelFaces := by
  unfold emittedPairs at h
  obtain ⟨c, _, hc⟩ := List.mem_flatMap.mp h
  obtain ⟨f, hf, hfp⟩ := List.mem_map.mp hc
  cases hfp
  exact cellFaces_subset hf

/-- Characterization of face membership in the per-cell face list. -/
theorem mem_cellFaces {st : WorkerState} {x y z : Nat} {f : VoxelFace} :
    f ∈ cellFaces st x y z ↔
      f ∈ VoxelFaces ∧ jsTruthy (getVoxelColor st x y z) = true ∧
      jsTruthy (getVoxelColor st ((x : Int) + f.dir.1) ((y : Int) + f.dir.2.1)
        ((z : Int) + f.dir.2.2)) = false := by
  unfold cellFaces
  by_cases ht : jsTruthy (getVoxelColor st x y z)
  · rw [if_pos ht]
    simp [List.mem_filter, ht]
  · rw [if_neg ht]
    simp only [List.not_mem_nil, false_iff]
    intro hcon
    exact ht (by simp [hcon.2.1])

/-- Characterization of membership in the emitted pair list: the cell
is in bounds, the face comes from the table, the cell reads truthy and
the neighbor in the face direction reads falsy. -/
theorem mem_emittedPairs {st : WorkerState} {x y z : Nat} {f : VoxelFace} :
    ((x, y, z), f) ∈ emittedPairs st ↔
      x < st.gridSize ∧ y < st.gridSize ∧ z < st.gridSize ∧
      f ∈ VoxelFaces ∧ jsTruthy (getVoxelColor st x y z) = true ∧
      jsTruthy (getVoxelColor st ((x : Int) + f.dir.1) ((y : Int) + f.dir.2.1)
        ((z : Int) + f.dir.2.2)) = false := by
  unfold emittedPairs
  rw [List.mem_flatMap]
  constructor
  · rintro ⟨c, hc, hm⟩
    obtain ⟨f', hf', hfp⟩ := List.mem_map.mp hm
    obtain ⟨rfl, rfl⟩ : c = (x, y, z) ∧ f' = f := by
      constructor
      · exact congrArg Prod.fst hfp
      · exact congrArg Prod.snd hfp
    have hb := mem_meshCoords.mp hc
    have hcf := mem_cellFaces.mp hf'
    exact ⟨hb.1, hb.2.1, hb.2.2, hcf.1, hcf.2.1, hcf.2.2⟩
  · rintro ⟨hx, hy, hz, hf, ht, hn⟩
    refine ⟨(x, y, z), mem_meshCoords.mpr ⟨hx, hy, hz⟩, ?_⟩
    exact List.mem_map.mpr ⟨f, mem_cellFaces.mpr ⟨hf, ht, hn⟩, rfl⟩

/-- In-bounds reads of getVoxelColor return the stored value. -/
theorem getVoxelColor_inBounds {st : WorkerState} {d : Nat → Nat → Nat → Option String}
    (hd : st.voxelData = some d) {x y z : Nat}
    (hx : x < st.gridSize) (hy : y < st.gridSize) (hz : z < st.gridSize) :
    getVoxelColor st x y z = d x y z := by
  have hcond : ¬((x : Int) < 0 || (x : Int) ≥ (st.gridSize : Int) || (y : Int) < 0
      || (y : Int) ≥ (st.gridSize : Int) || (z : Int) < 0 || (z : Int) ≥ (st.gridSize : Int)) = true := by
    simp only [Bool.or_eq_true, decide_eq_true_eq, not_or]
    refine ⟨⟨⟨⟨⟨by omega, by omega⟩, by omega⟩, by omega⟩, by omega⟩, by omega⟩
  simp only [getVoxelColor, hd, if_neg hcond]
  simp

/-- Out-of-bounds reads of getVoxelColor return null. -/
theorem getVoxelColor_oob {st : WorkerState} {x y z : Int}
    (h : x < 0 ∨ (st.gridSize : Int) ≤ x ∨ y < 0 ∨ (st.gridSize : Int) ≤ y
      ∨ z < 0 ∨ (st.gridSize : Int) ≤ z) :
    getVoxelColor st x y z = none := by
  cases hv : st.voxelData with
  | none => simp [getVoxelColor, hv]
  | some d =>
    have hcond : (x < 0 || x ≥ (st.gridSize : Int) || y < 0 || y ≥ (st.gridSize : Int)
        || z < 0 || z ≥ (st.gridSize : Int)) = true := by
      simp only [Bool.or_eq_true, decide_eq_true_eq]
      omega
    simp only [getVoxelColor, hv, if_pos hcond]

/-! Invariant of the geometry buffer maintained by the mesher fold. -/

/-- Structural invariant of a geometry buffer: position, normal and
color lists have one common length that is a multiple of three, the
index list length is a multiple of six, and every index is a valid
vertex offset. -/
def BufInv (b : GeomBuf) : Prop :=
  b.positions.length = b.normals.length ∧
  b.positions.length = b.colors.length ∧
  b.positions.length % 3 = 0 ∧
  b.indices.length % 6 = 0 ∧
  ∀ i ∈ b.indices, i < b.positions.length / 3

theorem pushFace_inv (col : ℚ × ℚ × ℚ) (off : ℚ) (x y z : Nat)
    (f : VoxelFace) (b : GeomBuf) (hc : f.corners.length = 4)
    (h : BufInv b) : BufInv (pushFace col off x y z f b) := by
  obtain ⟨h1, h2, h3, h4, h5⟩ := h
  obtain ⟨l1, l2, l3, l4⟩ := pushFace_lengths col off x y z f b hc
  refine ⟨by omega, by omega, by omega, by omega, ?_⟩
  intro i hi
  have hidx : (pushFace col off x y z f b).indices =
      b.indices ++ [b.positions.length / 3, b.positions.length / 3 + 1,
        b.positions.length / 3 + 2, b.positions.length / 3 + 2,
        b.positions.length / 3 + 1, b.positions.length / 3 + 3] := rfl
  rw [hidx] at hi
  rw [l1]
  rcases List.mem_append.mp hi with h | h
  · have := h5 i h
    omega
  · simp only [List.mem_cons, List.not_mem_nil, or_false] at h
    rcases h with rfl | rfl | rfl | rfl | rfl | rfl <;> omega

theorem foldl_pushPair_inv (resolve : String → ℚ × ℚ × ℚ)
    (st : WorkerState) (pairs : List ((Nat × Nat × Nat) × VoxelFace))
    (b : GeomBuf) (hc : ∀ p ∈ pairs, p.2.corners.length = 4)
    (h : BufInv b) : BufInv (pairs.foldl (pushPair resolve st) b) := by
  induction pairs generalizing b with
  | nil => exact h
  | cons p pairs ih =>
    refine ih (pushPair resolve st b p) (fun q hq => hc q (by simp [hq])) ?_
    exact pushFace_inv _ _ _ _ _ _ _ (hc p (by simp)) h

/-! Concrete fixtures used by witnesses and counterexamples. -/

/-- A color resolver mapping every token to pure green. -/
def exResolve : String → ℚ × ℚ × ℚ := fun _ => (0, 1, 0)

/-- Size-one grid whose single cell stores the token red. -/
def exSt1 : WorkerState :=
  { gridSize := 1, voxelData := some fun _ _ _ => some "red",
    scene := some [], voxelMesh := none, nextId := 0 }

/-- Size-one grid whose single cell stores the empty-string token. -/
def exStEmptyTok : WorkerState :=
  { gridSize := 1, voxelData := some fun _ _ _ => some "",
    scene := some [], voxelMesh := none, nextId := 0 }

/-! Claim C8: structural invariants of every built buffer. -/

/-- C8: for every grid, the buffer returned by the mesher has
positions, normals and colors of one common length equal to three
times the vertex count, an index list whose length is a multiple of
six, and only indices that are valid vertex offsets. -/
theorem c8_buffer_invariants (resolve : String → ℚ × ℚ × ℚ) (st : WorkerState)
    (buf : GeomBuf) (h : generateVoxelGeometry resolve st = .ok buf) :
    ∃ vcount,
      buf.positions.length = 3 * vcount ∧
      buf.normals.length = 3 * vcount ∧
      buf.colors.length = 3 * vcount ∧
      buf.indices.length % 6 = 0 ∧
      ∀ i ∈ buf.indices, i < vcount := by
  have hbuf : buf = voxelGeometryCore resolve st := by
    unfold generateVoxelGeometry at h
    cases hv : st.voxelData with
    | none => rw [hv] at h; cases h
    | some d => rw [hv] at h; cases h; rfl
  subst hbuf
  rw [voxelGeometryCore_eq_pairs]
  have hinv : BufInv ((emittedPairs st).foldl (pushPair resolve st) GeomBuf.empty) := by
    refine foldl_pushPair_inv resolve st _ _ ?_ ?_
    · intro p hp
      exact corners_length_of_mem (emittedPairs_faces hp)
    · refine ⟨rfl, rfl, rfl, rfl, ?_⟩
      intro i hi
      simp [GeomBuf.empty] at hi
  obtain ⟨h1, h2, h3, h4, h5⟩ := hinv
  refine ⟨((emittedPairs st).foldl (pushPair resolve st) GeomBuf.empty).positions.length / 3,
    by omega, by omega, by omega, h4, ?_⟩
  intro i hi
  exact h5 i hi

/-- Witness for C8 at the concrete one-cell grid. -/
theorem c8_buffer_invariants_witness :
    ∃ vcount,
      (voxelGeometryCore exResolve exSt1).positions.length = 3 * vcount ∧
      (voxelGeometryCore exResolve exSt1).normals.length = 3 * vcount ∧
      (voxelGeometryCore exResolve exSt1).colors.length = 3 * vcount ∧
      (voxelGeometryCore exResolve exSt1).indices.length % 6 = 0 ∧
      ∀ i ∈ (voxelGeometryCore exResolve exSt1).indices, i < vcount :=
  c8_buffer_invariants exResolve exSt1 (voxelGeometryCore exResolve exSt1) rfl

/-! Claim C9: bounds-safe total reads of the grid. -/

/-- C9: getVoxelColor is a total function (the embedding itself never
fails): any coordinate outside the cube on any axis reads as absent,
and an in-bounds read returns the stored value, which may itself be
absent. -/
theorem c9_get_bounds_safe (st : WorkerState) (d : Nat → Nat → Nat → Option String)
    (hd : st.voxelData = some d) (x y z : Int) :
    ((x < 0 ∨ (st.gridSize : Int) ≤ x ∨ y < 0 ∨ (st.gridSize : Int) ≤ y
        ∨ z < 0 ∨ (st.gridSize : Int) ≤ z) →
      getVoxelColor st x y z = none) ∧
    ((0 ≤ x ∧ x < (st.gridSize : Int) ∧ 0 ≤ y ∧ y < (st.gridSize : Int)
        ∧ 0 ≤ z ∧ z < (st.gridSize : Int)) →
      getVoxelColor st x y z = d x.toNat y.toNat z.toNat) := by
  constructor
  · exact getVoxelColor_oob
  · rintro ⟨hx0, hx, hy0, hy, hz0, hz⟩
    have hx' : x.toNat < st.gridSize := by omega
    have hy' : y.toNat < st.gridSize := by omega
    have hz' : z.toNat < st.gridSize := by omega
    have := getVoxelColor_inBounds hd hx' hy' hz'
    rwa [Int.toNat_of_nonneg hx0, Int.toNat_of_nonneg hy0, Int.toNat_of_nonneg hz0] at this

/-- Witness for C9: an out-of-bounds read of the concrete grid is
absent and the in-bounds read returns the stored token. -/
theorem c9_get_bounds_safe_witness :
    getVoxelColor exSt1 (-1) 0 0 = none ∧ getVoxelColor exSt1 0 0 0 = some "red" := by
  have h := c9_get_bounds_safe exSt1 (fun _ _ _ => some "red") rfl
  exact ⟨(h (-1) 0 0).1 (by left; decide), (h 0 0 0).2 (by refine ⟨?_, ?_, ?_, ?_, ?_, ?_⟩ <;> decide)⟩

/-! Claim C1: face emission condition. -/

/-- The left face of the VoxelFaces table (direction -x). -/
def faceLeft : VoxelFace := ⟨(-1, 0, 0), [(0, 1, 0), (0, 0, 0), (0, 1, 1), (0, 0, 1)]⟩

/-- The right face of the VoxelFaces table (direction +x). -/
def faceRight : VoxelFace := ⟨(1, 0, 0), [(1, 1, 1), (1, 0, 1), (1, 1, 0), (1, 0, 0)]⟩

/-- Two adjacent occupied cells in a size-two grid: the token red at
the origin and the token blue at its +x neighbor. -/
def exStPair : WorkerState :=
  { gridSize := 2,
    voxelData := some fun a b c =>
      if a = 0 ∧ b = 0 ∧ c = 0 then some "red"
      else if a = 1 ∧ b = 0 ∧ c = 0 then some "blue" else none,
    scene := some [], voxelMesh := none, nextId := 0 }

/-- Counterexample to C1 as stated: in the size-one grid whose single
cell stores the empty-string token, that cell is occupied in the sense
of the claim (its stored color is present under getVoxelColor) and its
-x neighbor is absent, yet no face at all is emitted for it, because
the mesher tests JavaScript truthiness rather than presence and the
empty string is falsy. -/
theorem c1_counterexample :
    getVoxelColor exStEmptyTok 0 0 0 = some "" ∧
    getVoxelColor exStEmptyTok (-1) 0 0 = none ∧
    faceLeft ∈ VoxelFaces ∧
    ((0, 0, 0), faceLeft) ∉ emittedPairs exStEmptyTok ∧
    (voxelGeometryCore exResolve exStEmptyTok).indices.length = 0 := by
  refine ⟨by decide, by decide, by decide, by decide, by decide⟩

/-- C1 amended: a face is emitted for cell (x, y, z) in direction f
precisely when the cell is in bounds, f is one of the six table faces,
the cell value is truthy (present and not the empty string), and the
neighbor value in that direction is falsy (absent, out of bounds, or
the empty string); each emitted pair contributes exactly six indices
of the built buffer; and two adjacent cells with truthy values share
no emitted face in either direction. -/
theorem c1_face_emission (resolve : String → ℚ × ℚ × ℚ) (st : WorkerState) :
    (∀ (x y z : Nat) (f : VoxelFace),
      ((x, y, z), f) ∈ emittedPairs st ↔
        x < st.gridSize ∧ y < st.gridSize ∧ z < st.gridSize ∧
        f ∈ VoxelFaces ∧ jsTruthy (getVoxelColor st x y z) = true ∧
        jsTruthy (getVoxelColor st ((x : Int) + f.dir.1) ((y : Int) + f.dir.2.1)
          ((z : Int) + f.dir.2.2)) = false) ∧
    (voxelGeometryCore resolve st).indices.length = 6 * (emittedPairs st).length ∧
    (∀ (x y z a b c : Nat) (f fop : VoxelFace), f ∈ VoxelFaces → fop ∈ VoxelFaces →
      (a : Int) = (x : Int) + f.dir.1 → (b : Int) = (y : Int) + f.dir.2.1 →
      (c : Int) = (z : Int) + f.dir.2.2 →
      fop.dir = (-f.dir.1, -f.dir.2.1, -f.dir.2.2) →
      jsTruthy (getVoxelColor st x y z) = true →
      jsTruthy (getVoxelColor st a b c) = true →
      ((x, y, z), f) ∉ emittedPairs st ∧ ((a, b, c), fop) ∉ emittedPairs st) := by
  refine ⟨fun x y z f => mem_emittedPairs, ?_, ?_⟩
  · rw [voxelGeometryCore_eq_pairs]
    have h := foldl_pushPair_lengths resolve st (emittedPairs st) GeomBuf.empty
      (fun p hp => corners_length_of_mem (emittedPairs_faces hp))
    have h4 := h.2.2.2
    simpa [GeomBuf.empty] using h4
  · intro x y z a b c f fop hf hfop ha hb hc hdir htxyz htabc
    constructor
    · intro hmem
      have h := (mem_emittedPairs.mp hmem).2.2.2.2.2
      rw [← ha, ← hb, ← hc] at h
      rw [htabc] at h
      cases h
    · intro hmem
      have h := (mem_emittedPairs.mp hmem).2.2.2.2.2
      have e1 : (a : Int) + fop.dir.1 = (x : Int) := by
        have : fop.dir.1 = -f.dir.1 := by rw [hdir]
        rw [this, ha]; ring
      have e2 : (b : Int) + fop.dir.2.1 = (y : Int) := by
        have : fop.dir.2.1 = -f.dir.2.1 := by rw [hdir]
        rw [this, hb]; ring
      have e3 : (c : Int) + fop.dir.2.2 = (z : Int) := by
        have : fop.dir.2.2 = -f.dir.2.2 := by rw [hdir]
        rw [this, hc]; ring
      rw [e1, e2, e3] at h
      rw [htxyz] at h
      cases h

/-- Witness for C1 amended: in the two-adjacent-cell grid, the shared
face is emitted by neither cell. -/
theorem c1_face_emission_witness :
    ((0, 0, 0), faceRight) ∉ emittedPairs exStPair ∧
    ((1, 0, 0), faceLeft) ∉ emittedPairs exStPair :=
  (c1_face_emission exResolve exStPair).2.2 0 0 0 1 0 0 faceRight faceLeft
    (by decide) (by decide) (by decide) (by decide) (by decide) (by decide)
    (by decide) (by decide)

/-! Claim C7: a single renderable cell yields exactly six faces. -/

/-- When every cell other than a fixed center reads falsy, every
coordinate other than the center reads falsy through getVoxelColor,
out-of-bounds coordinates included. -/
theorem truthy_only_center {st : WorkerState} {d : Nat → Nat → Nat → Option String}
    (hd : st.voxelData = some d) {cx cy cz : Nat}
    (hother : ∀ a b c : Nat, a < st.gridSize → b < st.gridSize → c < st.gridSize →
      (a, b, c) ≠ (cx, cy, cz) → jsTruthy (d a b c) = false)
    (px py pz : Int)
    (hne : ¬(px = (cx : Int) ∧ py = (cy : Int) ∧ pz = (cz : Int))) :
    jsTruthy (getVoxelColor st px py pz) = false := by
  by_cases hoob : px < 0 ∨ (st.gridSize : Int) ≤ px ∨ py < 0 ∨ (st.gridSize : Int) ≤ py
      ∨ pz < 0 ∨ (st.gridSize : Int) ≤ pz
  · rw [getVoxelColor_oob hoob]; rfl
  · push_neg at hoob
    obtain ⟨h1, h2, h3, h4, h5, h6⟩ := hoob
    have hx' : px.toNat < st.gridSize := by omega
    have hy' : py.toNat < st.gridSize := by omega
    have hz' : pz.toNat < st.gridSize := by omega
    have heq : getVoxelColor st px py pz = d px.toNat py.toNat pz.toNat := by
      have h := getVoxelColor_inBounds hd hx' hy' hz'
      rwa [Int.toNat_of_nonneg h1, Int.toNat_of_nonneg h3, Int.toNat_of_nonneg h5] at h
    rw [heq]
    apply hother _ _ _ hx' hy' hz'
    intro hcon
    rw [Prod.mk.injEq, Prod.mk.injEq] at hcon
    obtain ⟨e1, e2, e3⟩ := hcon
    exact hne ⟨by omega, by omega, by omega⟩

/-- Size-three grid whose only present cell stores the empty-string
token. -/
def exSt7 : WorkerState :=
  { gridSize := 3,
    voxelData := some fun a b c =>
      if a = 1 ∧ b = 1 ∧ c = 1 then some "" else none,
    scene := some [], voxelMesh := none, nextId := 0 }

/-- Size-three grid whose only present cell stores the token blue. -/
def exSt7blue : WorkerState :=
  { gridSize := 3,
    voxelData := some fun a b c =>
      if a = 1 ∧ b = 1 ∧ c = 1 then some "blue" else none,
    scene := some [], voxelMesh := none, nextId := 0 }

/-- The cells of a grid whose stored color is present under
getVoxelColor, in the mesher enumeration order; this is the occupancy
notion of the claim. -/
def presentCells (st : WorkerState) : List (Nat × Nat × Nat) :=
  (meshCoords st.gridSize).filter fun c =>
    (getVoxelColor st c.1 c.2.1 c.2.2).isSome

/-- Counterexample to C7 as stated: a size-three grid with exactly one
occupied cell (its stored color is present, namely the empty string)
for which the mesher emits zero faces instead of six. -/
theorem c7_counterexample :
    presentCells exSt7 = [(1, 1, 1)] ∧
    (voxelGeometryCore exResolve exSt7).positions.length = 0 ∧
    (voxelGeometryCore exResolve exSt7).indices.length = 0 := by
  refine ⟨by decide, by decide, by decide⟩

/-- C7 amended: in every grid of size at least three in which exactly
one cell holds a truthy (non-empty) color token and every other cell
reads falsy, the mesher returns exactly six faces: positions, normals
and colors of length 72 (24 vertices) and 36 indices. -/
theorem c7_single_cell (resolve : String → ℚ × ℚ × ℚ) (st : WorkerState)
    (d : Nat → Nat → Nat → Option String) (hd : st.voxelData = some d)
    (_hg : 3 ≤ st.gridSize) (cx cy cz : Nat)
    (hx : cx < st.gridSize) (hy : cy < st.gridSize) (hz : cz < st.gridSize)
    (hocc : jsTruthy (d cx cy cz) = true)
    (hother : ∀ a b c : Nat, a < st.gridSize → b < st.gridSize → c < st.gridSize →
      (a, b, c) ≠ (cx, cy, cz) → jsTruthy (d a b c) = false) :
    ∃ buf, generateVoxelGeometry resolve st = .ok buf ∧
      buf.positions.length = 72 ∧ buf.normals.length = 72 ∧
      buf.colors.length = 72 ∧ buf.indices.length = 36 := by
  have hcenter : jsTruthy (getVoxelColor st cx cy cz) = true := by
    rw [getVoxelColor_inBounds hd hx hy hz]; exact hocc
  have hdir0 : ∀ f ∈ VoxelFaces,
      ¬(f.dir.1 = 0 ∧ f.dir.2.1 = 0 ∧ f.dir.2.2 = 0) := by decide
  have hcf : cellFaces st cx cy cz = VoxelFaces := by
    unfold cellFaces
    rw [if_pos (by rw [hcenter])]
    apply List.filter_eq_self.mpr
    intro f hf
    rw [Bool.not_eq_true']
    refine truthy_only_center hd hother _ _ _ ?_
    intro hcon
    obtain ⟨e1, e2, e3⟩ := hcon
    exact hdir0 f hf ⟨by omega, by omega, by omega⟩
  have hlen : (emittedPairs st).length = 6 := by
    unfold emittedPairs
    rw [flatMap_length_single (meshCoords_nodup st.gridSize)
      ((@mem_meshCoords st.gridSize (cx, cy, cz)).mpr ⟨hx, hy, hz⟩) ?_]
    · rw [List.length_map, hcf]; rfl
    · rintro ⟨qa, qb, qc⟩ hq hne
      have hb := mem_meshCoords.mp hq
      have hfalse : jsTruthy (getVoxelColor st qa qb qc) = false := by
        refine truthy_only_center hd hother _ _ _ ?_
        intro hcon
        obtain ⟨e1, e2, e3⟩ := hcon
        exact hne (by
          have : qa = cx := by omega
          have : qb = cy := by omega
          have : qc = cz := by omega
          simp_all)
      have hcfq : cellFaces st qa qb qc = [] := by
        unfold cellFaces
        rw [if_neg (by rw [hfalse]; simp)]
      simp [hcfq]
  refine ⟨voxelGeometryCore resolve st, by simp [generateVoxelGeometry, hd], ?_, ?_, ?_, ?_⟩ <;>
    · rw [voxelGeometryCore_eq_pairs]
      have h := foldl_pushPair_lengths resolve st (emittedPairs st) GeomBuf.empty
        (fun p hp => corners_length_of_mem (emittedPairs_faces hp))
      obtain ⟨l1, l2, l3, l4⟩ := h
      simp only [l1, l2, l3, l4, hlen]
      rfl

/-- Witness for C7 amended at the concrete single blue cell in a
size-three grid. -/
theorem c7_single_cell_witness :
    ∃ buf, generateVoxelGeometry exResolve exSt7blue = .ok buf ∧
      buf.positions.length = 72 ∧ buf.normals.length = 72 ∧
      buf.colors.length = 72 ∧ buf.indices.length = 36 :=
  c7_single_cell exResolve exSt7blue
    (fun a b c => if a = 1 ∧ b = 1 ∧ c = 1 then some "blue" else none) rfl
    (by decide) 1 1 1 (by decide) (by decide) (by decide) (by decide)
    (by
      intro a b c _ _ _ hne
      simp only [ne_eq, Prod.mk.injEq] at hne
      simp only []
      rw [if_neg hne]
      rfl)

/-! Claim C10: the empty-string token is rendered exactly like an
absent cell. -/

/-- The mesher output only depends on the grid through the truthiness
of each read and through the value of truthy reads. -/
theorem voxelGeometryCore_congr (resolve : String → ℚ × ℚ × ℚ)
    {st st' : WorkerState} (hg : st.gridSize = st'.gridSize)
    (htr : ∀ x y z : Int, jsTruthy (getVoxelColor st x y z)
      = jsTruthy (getVoxelColor st' x y z))
    (hval : ∀ x y z : Int, jsTruthy (getVoxelColor st x y z) = true →
      getVoxelColor st x y z = getVoxelColor st' x y z) :
    voxelGeometryCore resolve st = voxelGeometryCore resolve st' := by
  unfold voxelGeometryCore
  rw [← hg]
  refine foldl_congr_fn ?_
  rintro b ⟨x, y, z⟩ _
  show processCell resolve st x y z b = processCell resolve st' x y z b
  unfold processCell
  dsimp only
  by_cases ht : jsTruthy (getVoxelColor st x y z) = true
  · rw [← hval x y z ht, ← hg]
    simp only [ht, if_true]
    refine foldl_congr_fn ?_
    intro b' f _
    rw [← htr ((x : Int) + f.dir.1) ((y : Int) + f.dir.2.1) ((z : Int) + f.dir.2.2)]
  · rw [Bool.not_eq_true] at ht
    have ht' : jsTruthy (getVoxelColor st' x y z) = false := by
      rw [← htr x y z]; exact ht
    simp [ht, ht']

/-- Size-two grid fixture for the C10 witness: a red cell at the
origin whose +x neighbor stores the empty-string token. -/
def exSt10 : WorkerState :=
  { gridSize := 2,
    voxelData := some fun a b c =>
      if a = 0 ∧ b = 0 ∧ c = 0 then some "red"
      else if a = 1 ∧ b = 0 ∧ c = 0 then some "" else none,
    scene := some [], voxelMesh := none, nextId := 0 }

/-- C10: a cell whose stored token is the empty string is treated by
the mesher exactly as an absent cell, although getVoxelColor returns
it as a present value: it contributes no faces, every adjacent cell
with a truthy value emits its face toward it, and the whole build
output is unchanged when the cell is replaced by an absent one. -/
theorem c10_empty_string_absent (resolve : String → ℚ × ℚ × ℚ)
    (st : WorkerState) (d : Nat → Nat → Nat → Option String)
    (hd : st.voxelData = some d) (x y z : Nat)
    (hx : x < st.gridSize) (hy : y < st.gridSize) (hz : z < st.gridSize)
    (hval : d x y z = some "") :
    getVoxelColor st x y z = some "" ∧
    cellFaces st x y z = [] ∧
    (∀ (a b c : Nat) (f : VoxelFace), f ∈ VoxelFaces →
      (a : Int) + f.dir.1 = (x : Int) → (b : Int) + f.dir.2.1 = (y : Int) →
      (c : Int) + f.dir.2.2 = (z : Int) →
      jsTruthy (getVoxelColor st a b c) = true →
      f ∈ cellFaces st a b c) ∧
    generateVoxelGeometry resolve st =
      generateVoxelGeometry resolve
        { st with voxelData := some (writeCell d x y z none) } := by
  have hget : getVoxelColor st x y z = some "" := by
    rw [getVoxelColor_inBounds hd hx hy hz, hval]
  have hfalsy : jsTruthy (getVoxelColor st x y z) = false := by
    rw [hget]; rfl
  refine ⟨hget, ?_, ?_, ?_⟩
  · unfold cellFaces
    rw [if_neg (by rw [hfalsy]; simp)]
  · intro a b c f hf ha hb hc htr
    rw [mem_cellFaces]
    refine ⟨hf, htr, ?_⟩
    rw [ha, hb, hc, hfalsy]
  · set st' : WorkerState := { st with voxelData := some (writeCell d x y z none) } with hst'
    have hget' : ∀ px py pz : Int, getVoxelColor st' px py pz =
        if px = (x : Int) ∧ py = (y : Int) ∧ pz = (z : Int) then none
        else getVoxelColor st px py pz := by
      intro px py pz
      by_cases hc : px = (x : Int) ∧ py = (y : Int) ∧ pz = (z : Int)
      · obtain ⟨e1, e2, e3⟩ := hc
        rw [if_pos ⟨e1, e2, e3⟩, e1, e2, e3]
        rw [@getVoxelColor_inBounds st' (writeCell d x y z none) rfl x y z hx hy hz]
        unfold writeCell
        rw [if_pos ⟨rfl, rfl, rfl⟩]
      · rw [if_neg hc]
        by_cases hoob : px < 0 ∨ (st.gridSize : Int) ≤ px ∨ py < 0
            ∨ (st.gridSize : Int) ≤ py ∨ pz < 0 ∨ (st.gridSize : Int) ≤ pz
        · rw [@getVoxelColor_oob st' px py pz hoob, @getVoxelColor_oob st px py pz hoob]
        · push_neg at hoob
          obtain ⟨h1, h2, h3, h4, h5, h6⟩ := hoob
          have hx' : px.toNat < st.gridSize := by omega
          have hy' : py.toNat < st.gridSize := by omega
          have hz' : pz.toNat < st.gridSize := by omega
          have e1 := @getVoxelColor_inBounds st' (writeCell d x y z none) rfl
            px.toNat py.toNat pz.toNat hx' hy' hz'
          have e2 := getVoxelColor_inBounds hd hx' hy' hz'
          rw [Int.toNat_of_nonneg h1, Int.toNat_of_nonneg h3, Int.toNat_of_nonneg h5] at e1 e2
          rw [e1, e2]
          unfold writeCell
          rw [if_neg (by
            intro hcon
            obtain ⟨f1, f2, f3⟩ := hcon
            exact hc ⟨by omega, by omega, by omega⟩)]
    have hcongr : voxelGeometryCore resolve st = voxelGeometryCore resolve st' := by
      refine voxelGeometryCore_congr resolve rfl ?_ ?_
      · intro px py pz
        rw [hget' px py pz]
        by_cases hc : px = (x : Int) ∧ py = (y : Int) ∧ pz = (z : Int)
        · obtain ⟨e1, e2, e3⟩ := hc
          rw [if_pos ⟨e1, e2, e3⟩, e1, e2, e3, hfalsy]
          rfl
        · rw [if_neg hc]
      · intro px py pz htr
        rw [hget' px py pz]
        by_cases hc : px = (x : Int) ∧ py = (y : Int) ∧ pz = (z : Int)
        · obtain ⟨e1, e2, e3⟩ := hc
          rw [e1, e2, e3] at htr
          rw [hfalsy] at htr
          cases htr
        · rw [if_neg hc]
    show generateVoxelGeometry resolve st = generateVoxelGeometry resolve st'
    unfold generateVoxelGeometry
    rw [hd]
    have : st'.voxelData = some (writeCell d x y z none) := rfl
    rw [this, hcongr]

/-- Witness for C10 in the size-two fixture: the empty-string cell at
(1, 0, 0) is present under getVoxelColor, contributes no faces, and
removing it leaves the build output unchanged. -/
theorem c10_empty_string_absent_witness :
    getVoxelColor exSt10 1 0 0 = some "" ∧
    cellFaces exSt10 1 0 0 = [] ∧
    (∀ (a b c : Nat) (f : VoxelFace), f ∈ VoxelFaces →
      (a : Int) + f.dir.1 = (1 : Int) → (b : Int) + f.dir.2.1 = (0 : Int) →
      (c : Int) + f.dir.2.2 = (0 : Int) →
      jsTruthy (getVoxelColor exSt10 a b c) = true →
      f ∈ cellFaces exSt10 a b c) ∧
    generateVoxelGeometry exResolve exSt10 =
      generateVoxelGeometry exResolve
        { exSt10 with voxelData := some (writeCell
            (fun a b c =>
              if a = 0 ∧ b = 0 ∧ c = 0 then some "red"
              else if a = 1 ∧ b = 0 ∧ c = 0 then some "" else none) 1 0 0 none) } :=
  c10_empty_string_absent exResolve exSt10
    (fun a b c =>
      if a = 0 ∧ b = 0 ∧ c = 0 then some "red"
      else if a = 1 ∧ b = 0 ∧ c = 0 then some "" else none)
    rfl 1 0 0 (by decide) (by decide) (by decide) (by decide)

/-! Structural lemmas about the runner cell enumeration and the eval
fold. -/

/-- The runner cell enumeration is the triple product of ranges. -/
theorem runCoords_eq_product (g : Nat) :
    runCoords g = (List.range g) ×ˢ ((List.range g) ×ˢ (List.range g)) := by
  simp only [runCoords, List.product, SProd.sprod, List.map_flatMap, List.flatMap_map,
    List.map_map, Function.comp]
  rfl

/-- Membership in the runner cell enumeration is exactly being in
bounds. -/
theorem mem_runCoords {g : Nat} {c : Nat × Nat × Nat} :
    c ∈ runCoords g ↔ c.1 < g ∧ c.2.1 < g ∧ c.2.2 < g := by
  rw [runCoords_eq_product]
  obtain ⟨a, b, c⟩ := c
  simp [List.mem_product]

/-- The runner cell enumeration has no duplicates. -/
theorem runCoords_nodup (g : Nat) : (runCoords g).Nodup := by
  rw [runCoords_eq_product]
  exact ((List.nodup_range g).product ((List.nodup_range g).product (List.nodup_range g)))

/-- Cells not in the remaining enumeration keep their value through
the eval fold. -/
theorem evalFold_grid_notmem {Ast : Type} (I : Interpreter Ast) (ast : Ast) (g : Nat)
    (L : List (Nat × Nat × Nat)) (acc : (Nat → Nat → Nat → Option String) × List String)
    (p : Nat × Nat × Nat) (hp : p ∉ L) :
    (L.foldl (evalCellStep I ast g) acc).1 p.1 p.2.1 p.2.2 = acc.1 p.1 p.2.1 p.2.2 := by
  induction L generalizing acc with
  | nil => rfl
  | cons q L ih =>
    have hpq : p ≠ q := fun h => hp (by simp [h])
    have hpL : p ∉ L := fun h => hp (by simp [h])
    rw [List.foldl_cons, ih _ hpL]
    obtain ⟨qa, qb, qc⟩ := q
    obtain ⟨pa, pb, pc⟩ := p
    have hne : ¬(pa = qa ∧ pb = qb ∧ pc = qc) := by
      rintro ⟨e1, e2, e3⟩
      exact hpq (by simp [e1, e2, e3])
    cases he : I.eval ast qa qb qc g <;>
      simp [evalCellStep, he, writeCell, hne]

/-- A cell enumerated exactly once ends the eval fold holding the
value mapped from its eval outcome. -/
theorem evalFold_grid_mem {Ast : Type} (I : Interpreter Ast) (ast : Ast) (g : Nat)
    (L : List (Nat × Nat × Nat)) (acc : (Nat → Nat → Nat → Option String) × List String)
    (p : Nat × Nat × Nat) (hnd : L.Nodup) (hp : p ∈ L) :
    (L.foldl (evalCellStep I ast g) acc).1 p.1 p.2.1 p.2.2 =
      match I.eval ast p.1 p.2.1 p.2.2 g with
      | .ok v => cellValue v
      | .error _ => none := by
  induction L generalizing acc with
  | nil => simp at hp
  | cons q L ih =>
    by_cases hpq : p = q
    · subst hpq
      have hnot : p ∉ L := (List.nodup_cons.mp hnd).1
      rw [List.foldl_cons, evalFold_grid_notmem I ast g L _ p hnot]
      obtain ⟨pa, pb, pc⟩ := p
      cases he : I.eval ast pa pb pc g <;>
        simp [evalCellStep, he, writeCell]
    · have hpL : p ∈ L := by
        rcases List.mem_cons.mp hp with h | h
        · exact absurd h hpq
        · exact h
      rw [List.foldl_cons]
      exact ih _ (List.nodup_cons.mp hnd).2 hpL

/-- The warnings accumulated by the eval fold are exactly the messages
of the failing cells, in enumeration order. -/
theorem evalFold_warnings {Ast : Type} (I : Interpreter Ast) (ast : Ast) (g : Nat)
    (L : List (Nat × Nat × Nat)) (acc : (Nat → Nat → Nat → Option String) × List String) :
    (L.foldl (evalCellStep I ast g) acc).2 = acc.2 ++ L.filterMap (fun c =>
      match I.eval ast c.1 c.2.1 c.2.2 g with
      | .ok _ => none
      | .error e => some (warnMsg c.1 c.2.1 c.2.2 e)) := by
  induction L generalizing acc with
  | nil => simp
  | cons q L ih =>
    rw [List.foldl_cons, ih]
    obtain ⟨qa, qb, qc⟩ := q
    cases he : I.eval ast qa qb qc g <;>
      simp [evalCellStep, he, List.filterMap_cons]

/-! Equation lemma for updateVoxelMesh on an initialized state. -/

/-- Reads only depend on the grid size and the voxel data. -/
theorem getVoxelColor_data {st st' : WorkerState}
    (hg : st.gridSize = st'.gridSize) (hd : st.voxelData = st'.voxelData)
    (x y z : Int) : getVoxelColor st x y z = getVoxelColor st' x y z := by
  unfold getVoxelColor
  rw [hd, hg]

/-- The built buffer only depends on the grid size and the voxel
data. -/
theorem voxelGeometryCore_data (resolve : String → ℚ × ℚ × ℚ)
    {st st' : WorkerState} (hg : st.gridSize = st'.gridSize)
    (hd : st.voxelData = st'.voxelData) :
    voxelGeometryCore resolve st = voxelGeometryCore resolve st' :=
  voxelGeometryCore_congr resolve hg
    (fun x y z => by rw [getVoxelColor_data hg hd])
    (fun x y z _ => getVoxelColor_data hg hd x y z)

/-- The scene node list after the removal step of updateVoxelMesh. -/
def sceneAfterRemove (st : WorkerState) (ns : List Nat) : List Nat :=
  match st.voxelMesh with
  | some m => ns.erase m
  | none => ns

/-- The release events performed by the removal step of
updateVoxelMesh. -/
def releaseEvents (st : WorkerState) : List MeshEvent :=
  match st.voxelMesh with
  | some m => [.removeFromScene m, .disposeGeometry m, .disposeMaterial m]
  | none => []

theorem updateVoxelMesh_eq (resolve : String → ℚ × ℚ × ℚ) (st : WorkerState)
    (ns : List Nat) (d : Nat → Nat → Nat → Option String)
    (hs : st.scene = some ns) (hd : st.voxelData = some d) :
    updateVoxelMesh resolve st =
      if (voxelGeometryCore resolve st).indices.length > 0 then
        .ok ({ st with
                scene := some (sceneAfterRemove st ns ++ [st.nextId]),
                voxelMesh := some st.nextId, nextId := st.nextId + 1 },
             releaseEvents st ++
               [MeshEvent.createGeometry st.nextId, MeshEvent.createMaterial st.nextId,
                MeshEvent.addToScene st.nextId])
      else
        .ok ({ st with
                scene := some (sceneAfterRemove st ns),
                voxelMesh := none, nextId := st.nextId + 1 },
             releaseEvents st ++
               [MeshEvent.createGeometry st.nextId, MeshEvent.disposeEmptyGeometry st.nextId]) := by
  unfold updateVoxelMesh sceneAfterRemove releaseEvents
  rw [hs]
  cases hm : st.voxelMesh with
  | some m =>
    simp only [generateVoxelGeometry, hd]
    rw [show voxelGeometryCore resolve
        { gridSize := st.gridSize, voxelData := some d, scene := some (ns.erase m),
          voxelMesh := none, nextId := st.nextId } = voxelGeometryCore resolve st from
      voxelGeometryCore_data resolve rfl hd.symm]
  | none =>
    simp only [generateVoxelGeometry, hd]
    rw [show voxelGeometryCore resolve
        { gridSize := st.gridSize, voxelData := some d, scene := some ns,
          voxelMesh := none, nextId := st.nextId } = voxelGeometryCore resolve st from
      voxelGeometryCore_data resolve rfl hd.symm]

/-! Claims about the runner. -/

theorem runPythonCode_eq {Ast : Type} (resolve : String → ℚ × ℚ × ℚ)
    (I : Interpreter Ast) (code : String) (st : WorkerState)
    (ns : List Nat) (d : Nat → Nat → Nat → Option String)
    (hs : st.scene = some ns) (hd : st.voxelData = some d) :
    runPythonCode resolve (some I) code st =
      match I.parse code with
      | .error e =>
        { state := { st with voxelData := some (resetGrid st.gridSize d) },
          warnings := [], meshUpdated := false,
          result := .error ("Code execution failed: " ++ e) }
      | .ok ast =>
        let evald := (runCoords st.gridSize).foldl (evalCellStep I ast st.gridSize)
          (resetGrid st.gridSize d, [])
        let st1 : WorkerState := { st with voxelData := some evald.1 }
        match updateVoxelMesh resolve st1 with
        | .error e =>
          { state := st1, warnings := evald.2, meshUpdated := true,
            result := .error ("Code execution failed: " ++ e) }
        | .ok (st2, _) =>
          { state := st2, warnings := evald.2, meshUpdated := true,
            result := .ok () } := by
  unfold runPythonCode
  rw [hs, hd]

/-- Every cell of a freshly reset grid reads absent. -/
theorem resetGrid_reads_none (st : WorkerState)
    (d : Nat → Nat → Nat → Option String)
    (hd : st.voxelData = some (resetGrid st.gridSize d)) (x y z : Int) :
    getVoxelColor st x y z = none := by
  by_cases hoob : x < 0 ∨ (st.gridSize : Int) ≤ x ∨ y < 0 ∨ (st.gridSize : Int) ≤ y
      ∨ z < 0 ∨ (st.gridSize : Int) ≤ z
  · exact getVoxelColor_oob hoob
  · push_neg at hoob
    obtain ⟨h1, h2, h3, h4, h5, h6⟩ := hoob
    have hx' : x.toNat < st.gridSize := by omega
    have hy' : y.toNat < st.gridSize := by omega
    have hz' : z.toNat < st.gridSize := by omega
    have h := getVoxelColor_inBounds hd hx' hy' hz'
    rw [Int.toNat_of_nonneg h1, Int.toNat_of_nonneg h3, Int.toNat_of_nonneg h5] at h
    rw [h]
    unfold resetGrid
    rw [if_pos ⟨hx', hy', hz'⟩]

/-- C3: a run whose source fails to parse reports a fatal compile
failure, leaves every cell of the grid absent, and never invokes the
mesh rebuild. -/
theorem c3_fatal_compile {Ast : Type} (resolve : String → ℚ × ℚ × ℚ)
    (I : Interpreter Ast) (code : String) (st : WorkerState)
    (ns : List Nat) (d : Nat → Nat → Nat → Option String) (e : String)
    (hs : st.scene = some ns) (hd : st.voxelData = some d)
    (hp : I.parse code = .error e) :
    (runPythonCode resolve (some I) code st).result
        = .error ("Code execution failed: " ++ e) ∧
    (runPythonCode resolve (some I) code st).meshUpdated = false ∧
    ∀ x y z : Int,
      getVoxelColor (runPythonCode resolve (some I) code st).state x y z = none := by
  rw [runPythonCode_eq resolve I code st ns d hs hd, hp]
  refine ⟨rfl, rfl, ?_⟩
  intro x y z
  exact resetGrid_reads_none _ d rfl x y z

/-- Interpreter whose parse always fails with one syntax error. -/
def exBadInterp : Interpreter Unit :=
  { parse := fun _ => .error "SyntaxError",
    eval := fun _ _ _ _ _ => .ok (.vbool true) }

/-- Witness for C3 at a concrete failing parse. -/
theorem c3_fatal_compile_witness :
    (runPythonCode exResolve (some exBadInterp) "def draw(" exSt1).result
        = .error "Code execution failed: SyntaxError" ∧
    (runPythonCode exResolve (some exBadInterp) "def draw(" exSt1).meshUpdated = false ∧
    getVoxelColor (runPythonCode exResolve (some exBadInterp) "def draw(" exSt1).state 0 0 0
        = none := by
  have h := c3_fatal_compile exResolve exBadInterp "def draw(" exSt1 []
    (fun _ _ _ => some "red") "SyntaxError" rfl rfl rfl
  exact ⟨h.1, h.2.1, h.2.2 0 0 0⟩

/-- Full description of a run whose parse succeeds: it reports
success, rebuilds the mesh, stores the mapped eval outcome at every
in-bounds cell, and posts exactly the warnings of the failing
cells. -/
theorem runPythonCode_ok_spec {Ast : Type} (resolve : String → ℚ × ℚ × ℚ)
    (I : Interpreter Ast) (code : String) (st : WorkerState)
    (ns : List Nat) (d : Nat → Nat → Nat → Option String) (ast : Ast)
    (hs : st.scene = some ns) (hd : st.voxelData = some d)
    (hp : I.parse code = .ok ast) :
    (runPythonCode resolve (some I) code st).result = .ok () ∧
    (runPythonCode resolve (some I) code st).meshUpdated = true ∧
    (∀ x y z : Nat, x < st.gridSize → y < st.gridSize → z < st.gridSize →
      getVoxelColor (runPythonCode resolve (some I) code st).state x y z =
        match I.eval ast x y z st.gridSize with
        | .ok v => cellValue v
        | .error _ => none) ∧
    (runPythonCode resolve (some I) code st).warnings =
      (runCoords st.gridSize).filterMap (fun c =>
        match I.eval ast c.1 c.2.1 c.2.2 st.gridSize with
        | .ok _ => none
        | .error e => some (warnMsg c.1 c.2.1 c.2.2 e)) := by
  rw [runPythonCode_eq resolve I code st ns d hs hd, hp]
  dsimp only
  set evald := (runCoords st.gridSize).foldl (evalCellStep I ast st.gridSize)
    (resetGrid st.gridSize d, []) with hevald
  set st1 : WorkerState := { st with voxelData := some evald.1 } with hst1
  have hs1 : st1.scene = some ns := hs
  obtain ⟨st2, ev, hupd, hdata2, hgrid2⟩ :
      ∃ st2 ev, updateVoxelMesh resolve st1 = .ok (st2, ev) ∧
        st2.voxelData = some evald.1 ∧ st2.gridSize = st.gridSize := by
    rw [updateVoxelMesh_eq resolve st1 ns evald.1 hs1 rfl]
    by_cases hgt : (voxelGeometryCore resolve st1).indices.length > 0
    · rw [if_pos hgt]
      exact ⟨_, _, rfl, rfl, rfl⟩
    · rw [if_neg hgt]
      exact ⟨_, _, rfl, rfl, rfl⟩
  rw [hupd]
  refine ⟨rfl, rfl, ?_, ?_⟩
  · intro x y z hx hy hz
    have hx2 : x < st2.gridSize := by rw [hgrid2]; exact hx
    have hy2 : y < st2.gridSize := by rw [hgrid2]; exact hy
    have hz2 : z < st2.gridSize := by rw [hgrid2]; exact hz
    rw [getVoxelColor_inBounds hdata2 hx2 hy2 hz2]
    exact evalFold_grid_mem I ast st.gridSize (runCoords st.gridSize) _ (x, y, z)
      (runCoords_nodup st.gridSize)
      (mem_runCoords.mpr ⟨hx, hy, hz⟩)
  · have h := evalFold_warnings I ast st.gridSize (runCoords st.gridSize)
      (resetGrid st.gridSize d, [])
    rw [← hevald] at h
    simpa using h

/-- C4: a run whose parse succeeds completes successfully even when
draw throws at some cells: every throwing cell is forced absent and
contributes exactly one warning, every other cell receives the value
mapped from its eval result, and the mesh rebuild is performed. -/
theorem c4_cell_error_recovery {Ast : Type} (resolve : String → ℚ × ℚ × ℚ)
    (I : Interpreter Ast) (code : String) (st : WorkerState)
    (ns : List Nat) (d : Nat → Nat → Nat → Option String) (ast : Ast)
    (hs : st.scene = some ns) (hd : st.voxelData = some d)
    (hp : I.parse code = .ok ast) :
    (runPythonCode resolve (some I) code st).result = .ok () ∧
    (runPythonCode resolve (some I) code st).meshUpdated = true ∧
    (∀ x y z : Nat, x < st.gridSize → y < st.gridSize → z < st.gridSize →
      ∀ e : String, I.eval ast x y z st.gridSize = .error e →
        getVoxelColor (runPythonCode resolve (some I) code st).state x y z = none) ∧
    (∀ x y z : Nat, x < st.gridSize → y < st.gridSize → z < st.gridSize →
      ∀ v : JSValue, I.eval ast x y z st.gridSize = .ok v →
        getVoxelColor (runPythonCode resolve (some I) code st).state x y z = cellValue v) ∧
    (runPythonCode resolve (some I) code st).warnings =
      (runCoords st.gridSize).filterMap (fun c =>
        match I.eval ast c.1 c.2.1 c.2.2 st.gridSize with
        | .ok _ => none
        | .error e => some (warnMsg c.1 c.2.1 c.2.2 e)) := by
  obtain ⟨h1, h2, h3, h4⟩ := runPythonCode_ok_spec resolve I code st ns d ast hs hd hp
  refine ⟨h1, h2, ?_, ?_, h4⟩
  · intro x y z hx hy hz e he
    have h := h3 x y z hx hy hz
    rw [he] at h
    exact h
  · intro x y z hx hy hz v hv
    have h := h3 x y z hx hy hz
    rw [hv] at h
    exact h

/-- Interpreter that throws at the origin cell and returns the boolean
true everywhere else. -/
def exThrowInterp : Interpreter Unit :=
  { parse := fun _ => .ok (),
    eval := fun _ x y z _ =>
      if x = 0 ∧ y = 0 ∧ z = 0 then .error "boom" else .ok (.vbool true) }

/-- Size-two state fixture for the runner witnesses. -/
def exStRun : WorkerState :=
  { gridSize := 2, voxelData := some fun _ _ _ => none,
    scene := some [], voxelMesh := none, nextId := 0 }

/-- Witness for C4: with a draw that throws at the origin and returns
true elsewhere, the run succeeds, the origin is absent with one
warning, and another cell holds the default color. -/
theorem c4_cell_error_recovery_witness :
    (runPythonCode exResolve (some exThrowInterp) "code" exStRun).result = .ok () ∧
    (runPythonCode exResolve (some exThrowInterp) "code" exStRun).meshUpdated = true ∧
    getVoxelColor (runPythonCode exResolve (some exThrowInterp) "code" exStRun).state 0 0 0
      = none ∧
    getVoxelColor (runPythonCode exResolve (some exThrowInterp) "code" exStRun).state 1 1 1
      = some "#00ff00" ∧
    (runPythonCode exResolve (some exThrowInterp) "code" exStRun).warnings
      = [warnMsg 0 0 0 "boom"] := by
  obtain ⟨h1, h2, h3, h4, h5⟩ := c4_cell_error_recovery exResolve exThrowInterp "code"
    exStRun [] (fun _ _ _ => none) () rfl rfl rfl
  refine ⟨h1, h2, ?_, ?_, ?_⟩
  · exact h3 0 0 0 (by decide) (by decide) (by decide) "boom" (by rfl)
  · exact h4 1 1 1 (by decide) (by decide) (by decide) (.vbool true) (by rfl)
  · rw [h5]
    decide

/-- C2: at every cell where the compiled draw entry point returns
normally, a string result is stored verbatim, the boolean true stores
the fixed default color token, and any other value leaves the cell
absent. -/
theorem c2_result_mapping {Ast : Type} (resolve : String → ℚ × ℚ × ℚ)
    (I : Interpreter Ast) (code : String) (st : WorkerState)
    (ns : List Nat) (d : Nat → Nat → Nat → Option String) (ast : Ast)
    (hs : st.scene = some ns) (hd : st.voxelData = some d)
    (hp : I.parse code = .ok ast) (x y z : Nat)
    (hx : x < st.gridSize) (hy : y < st.gridSize) (hz : z < st.gridSize)
    (v : JSValue) (he : I.eval ast x y z st.gridSize = .ok v) :
    getVoxelColor (runPythonCode resolve (some I) code st).state x y z =
      match v with
      | .vstr s => some s
      | .vbool true => some "#00ff00"
      | _ => none := by
  have h := (runPythonCode_ok_spec resolve I code st ns d ast hs hd hp).2.2.1 x y z hx hy hz
  rw [he] at h
  rw [h]
  cases v with
  | vstr s => rfl
  | vbool b => cases b <;> rfl
  | vnum n => rfl
  | vnull => rfl
  | vundefined => rfl

/-- Interpreter returning a different kind of value at four distinct
cells of a size-two grid. -/
def exMixedInterp : Interpreter Unit :=
  { parse := fun _ => .ok (),
    eval := fun _ x y z _ =>
      if x = 0 ∧ y = 0 ∧ z = 0 then .ok (.vstr "teal")
      else if x = 1 ∧ y = 0 ∧ z = 0 then .ok (.vbool true)
      else if x = 0 ∧ y = 1 ∧ z = 0 then .ok (.vbool false)
      else .ok (.vnum 7) }

/-- Witness for C2: the four result kinds map to the specified cell
contents. -/
theorem c2_result_mapping_witness :
    getVoxelColor (runPythonCode exResolve (some exMixedInterp) "code" exStRun).state 0 0 0
      = some "teal" ∧
    getVoxelColor (runPythonCode exResolve (some exMixedInterp) "code" exStRun).state 1 0 0
      = some "#00ff00" ∧
    getVoxelColor (runPythonCode exResolve (some exMixedInterp) "code" exStRun).state 0 1 0
      = none ∧
    getVoxelColor (runPythonCode exResolve (some exMixedInterp) "code" exStRun).state 1 1 1
      = none := by
  refine ⟨?_, ?_, ?_, ?_⟩
  · exact c2_result_mapping exResolve exMixedInterp "code" exStRun [] (fun _ _ _ => none) ()
      rfl rfl rfl 0 0 0 (by decide) (by decide) (by decide) (.vstr "teal") (by rfl)
  · exact c2_result_mapping exResolve exMixedInterp "code" exStRun [] (fun _ _ _ => none) ()
      rfl rfl rfl 1 0 0 (by decide) (by decide) (by decide) (.vbool true) (by rfl)
  · exact c2_result_mapping exResolve exMixedInterp "code" exStRun [] (fun _ _ _ => none) ()
      rfl rfl rfl 0 1 0 (by decide) (by decide) (by decide) (.vbool false) (by rfl)
  · exact c2_result_mapping exResolve exMixedInterp "code" exStRun [] (fun _ _ _ => none) ()
      rfl rfl rfl 1 1 1 (by decide) (by decide) (by decide) (.vnum 7) (by rfl)

/-! Claim C5: scene synchronization. -/

/-- The scene-graph invariant maintained by the scene synchronizer:
the voxel mesh nodes present in the scene are exactly the tracked
handle. -/
def wellFormedScene (st : WorkerState) (ns : List Nat) : Prop :=
  match st.voxelMesh with
  | some m => ns = [m]
  | none => ns = []

/-- One call of updateVoxelMesh on an initialized well-formed state:
the installed handle is released strictly before any new resource
event, the grid is untouched, well-formedness is preserved and the
scene ends with exactly one voxel mesh iff the new index list is
nonempty. -/
theorem updateVoxelMesh_spec (resolve : String → ℚ × ℚ × ℚ) (st : WorkerState)
    (ns : List Nat) (d : Nat → Nat → Nat → Option String)
    (hs : st.scene = some ns) (hd : st.voxelData = some d)
    (hwf : wellFormedScene st ns) :
    ∃ st' ev, updateVoxelMesh resolve st = .ok (st', ev) ∧
      (∀ m, st.voxelMesh = some m →
        ∃ rest, ev = [MeshEvent.removeFromScene m, MeshEvent.disposeGeometry m,
            MeshEvent.disposeMaterial m] ++ rest ∧
          ∀ e' ∈ rest, e' = MeshEvent.createGeometry st.nextId ∨
            e' = MeshEvent.createMaterial st.nextId ∨
            e' = MeshEvent.addToScene st.nextId ∨
            e' = MeshEvent.disposeEmptyGeometry st.nextId) ∧
      st'.voxelData = some d ∧ st'.gridSize = st.gridSize ∧
      voxelGeometryCore resolve st' = voxelGeometryCore resolve st ∧
      ∃ ns', st'.scene = some ns' ∧ wellFormedScene st' ns' ∧
        ns'.length = if (voxelGeometryCore resolve st).indices.length > 0 then 1 else 0 := by
  have hremove : sceneAfterRemove st ns = [] := by
    unfold sceneAfterRemove wellFormedScene at *
    cases hm : st.voxelMesh with
    | some m => rw [hm] at hwf; rw [hwf]; simp
    | none => rw [hm] at hwf; rw [hwf]
  have hrel : ∀ m, st.voxelMesh = some m →
      releaseEvents st = [MeshEvent.removeFromScene m, MeshEvent.disposeGeometry m,
        MeshEvent.disposeMaterial m] := by
    intro m hm
    unfold releaseEvents
    rw [hm]
  rw [updateVoxelMesh_eq resolve st ns d hs hd]
  by_cases hgt : (voxelGeometryCore resolve st).indices.length > 0
  · rw [if_pos hgt]
    refine ⟨_, _, rfl, ?_, hd, rfl, voxelGeometryCore_data resolve rfl rfl, ?_⟩
    · intro m hm
      refine ⟨[MeshEvent.createGeometry st.nextId, MeshEvent.createMaterial st.nextId,
        MeshEvent.addToScene st.nextId], ?_, ?_⟩
      · rw [hrel m hm]
      · intro e' he'
        simp only [List.mem_cons, List.not_mem_nil, or_false] at he'
        rcases he' with rfl | rfl | rfl <;> simp
    · refine ⟨sceneAfterRemove st ns ++ [st.nextId], rfl, ?_, ?_⟩
      · show wellFormedScene _ _
        unfold wellFormedScene
        rw [hremove]
        rfl
      · rw [hremove, if_pos hgt]
        rfl
  · rw [if_neg hgt]
    refine ⟨_, _, rfl, ?_, hd, rfl, voxelGeometryCore_data resolve rfl rfl, ?_⟩
    · intro m hm
      refine ⟨[MeshEvent.createGeometry st.nextId, MeshEvent.disposeEmptyGeometry st.nextId],
        ?_, ?_⟩
      · rw [hrel m hm]
      · intro e' he'
        simp only [List.mem_cons, List.not_mem_nil, or_false] at he'
        rcases he' with rfl | rfl <;> simp
    · refine ⟨sceneAfterRemove st ns, rfl, ?_, ?_⟩
      · show wellFormedScene _ _
        unfold wellFormedScene
        rw [hremove]
      · rw [hremove, if_neg hgt]
        rfl

/-- C5: on an initialized well-formed state, updateVoxelMesh removes
and releases the installed mesh handle strictly before creating any
new resource, leaves the scene holding exactly one voxel mesh when the
new index list is nonempty and none when it is empty, preserves the
grid, and a second call with the unchanged grid again leaves the same
single mesh count. -/
theorem c5_scene_swap (resolve : String → ℚ × ℚ × ℚ) (st : WorkerState)
    (ns : List Nat) (d : Nat → Nat → Nat → Option String)
    (hs : st.scene = some ns) (hd : st.voxelData = some d)
    (hwf : wellFormedScene st ns) :
    ∃ st' ev, updateVoxelMesh resolve st = .ok (st', ev) ∧
      (∀ m, st.voxelMesh = some m →
        ∃ rest, ev = [MeshEvent.removeFromScene m, MeshEvent.disposeGeometry m,
            MeshEvent.disposeMaterial m] ++ rest ∧
          ∀ e' ∈ rest, e' = MeshEvent.createGeometry st.nextId ∨
            e' = MeshEvent.createMaterial st.nextId ∨
            e' = MeshEvent.addToScene st.nextId ∨
            e' = MeshEvent.disposeEmptyGeometry st.nextId) ∧
      st'.voxelData = some d ∧ st'.gridSize = st.gridSize ∧
      (∃ ns', st'.scene = some ns' ∧ wellFormedScene st' ns' ∧
        ns'.length = if (voxelGeometryCore resolve st).indices.length > 0 then 1 else 0) ∧
      (∃ st'' ev', updateVoxelMesh resolve st' = .ok (st'', ev') ∧
        ∃ ns'', st''.scene = some ns'' ∧
          ns''.length = if (voxelGeometryCore resolve st).indices.length > 0 then 1 else 0) := by
  obtain ⟨st', ev, hupd, hrelease, hdata', hgrid', hcore', ns', hs', hwf', hlen'⟩ :=
    updateVoxelMesh_spec resolve st ns d hs hd hwf
  obtain ⟨st'', ev', hupd'', hrel'', hdata'', hgrid'', hcore'', ns'', hs'', hwf'', hlen''⟩ :=
    updateVoxelMesh_spec resolve st' ns' d hs' hdata' hwf'
  rw [hcore'] at hlen''
  exact ⟨st', ev, hupd, hrelease, hdata', hgrid', ⟨ns', hs', hwf', hlen'⟩,
    st'', ev', hupd'', ns'', hs'', hlen''⟩

/-- State fixture for the C5 witness: a size-one red grid with an
installed mesh handle. -/
def exStScene : WorkerState :=
  { gridSize := 1, voxelData := some fun _ _ _ => some "red",
    scene := some [5], voxelMesh := some 5, nextId := 6 }

/-- Witness for C5 at a state with an installed handle and a nonempty
grid. -/
theorem c5_scene_swap_witness :
    ∃ st' ev, updateVoxelMesh exResolve exStScene = .ok (st', ev) ∧
      (∀ m, exStScene.voxelMesh = some m →
        ∃ rest, ev = [MeshEvent.removeFromScene m, MeshEvent.disposeGeometry m,
            MeshEvent.disposeMaterial m] ++ rest ∧
          ∀ e' ∈ rest, e' = MeshEvent.createGeometry exStScene.nextId ∨
            e' = MeshEvent.createMaterial exStScene.nextId ∨
            e' = MeshEvent.addToScene exStScene.nextId ∨
            e' = MeshEvent.disposeEmptyGeometry exStScene.nextId) ∧
      st'.voxelData = some (fun _ _ _ => some "red") ∧
      st'.gridSize = exStScene.gridSize ∧
      (∃ ns', st'.scene = some ns' ∧ wellFormedScene st' ns' ∧
        ns'.length = if (voxelGeometryCore exResolve exStScene).indices.length > 0
          then 1 else 0) ∧
      (∃ st'' ev', updateVoxelMesh exResolve st' = .ok (st'', ev') ∧
        ∃ ns'', st''.scene = some ns'' ∧
          ns''.length = if (voxelGeometryCore exResolve exStScene).indices.length > 0
            then 1 else 0) :=
  c5_scene_swap exResolve exStScene [5] (fun _ _ _ => some "red") rfl rfl (by
    unfold wellFormedScene
    rfl)

/-! Claim C6: re-entrancy of the run dispatcher.

The runner suspends at yield points: after the inner z loop of each
row (x, y) with y divisible by four it awaits a zero-delay timer
(worker.ts lines 1047-1050), which places its continuation at the tail
of the macrotask queue; an incoming runPythonCode message is likewise
a macrotask, and the onmessage dispatcher (worker.ts lines 1112-1134)
invokes the handler for it immediately, consulting no
currently-running flag.  The model below is that event loop: a run is
split into segments at the yield rows, the queue is FIFO, and a
message task starts the requested run (grid reset included) at
once. -/

/-- The (x, y) rows of the eval loop in iteration order. -/
def runRows (g : Nat) : List (Nat × Nat) :=
  (List.range g).flatMap fun x => (List.range g).map fun y => (x, y)

/-- Groups the rows into the maximal chunks executed between two
yields: the runner awaits after each row whose y is divisible by
four. -/
def segmentsAux : List (Nat × Nat) → List (Nat × Nat) → List (List (Nat × Nat))
  | [], acc => [acc]
  | r :: rs, acc =>
    if r.2 % 4 == 0 then (acc ++ [r]) :: segmentsAux rs []
    else segmentsAux rs (acc ++ [r])

/-- The segments of one run over a size-g grid. -/
def segments (g : Nat) : List (List (Nat × Nat)) := segmentsAux (runRows g) []

/-- Observable events of interleaved runs: the grid reset at the start
of a run, a cell write, the mesh rebuild, and the success report. -/
inductive RunEvent where
  | reset (r : Nat)
  | write (r : Nat) (x y z : Nat)
  | meshRebuild (r : Nat)
  | success (r : Nat)
deriving DecidableEq, Repr

/-- Macrotasks of the worker event loop: an incoming runPythonCode
message for run r, or the resumption of run r at segment k after its
zero-delay timer fired. -/
inductive Task where
  | message (r : Nat)
  | resume (r : Nat) (k : Nat)
deriving DecidableEq, Repr

/-- The cell-write events of segment k of run r. -/
def segEvents (g r k : Nat) : List RunEvent :=
  match (segments g)[k]? with
  | some rows => rows.flatMap fun p => (List.range g).map fun z => RunEvent.write r p.1 p.2 z
  | none => []

/-- Executes one segment of run r: its cell writes, then the mesh
rebuild and success report when it is the last segment, and otherwise
the continuation task enqueued by the zero-delay timer. -/
def execSeg (g r k : Nat) : List RunEvent × List Task :=
  (segEvents g r k ++
    (if k + 1 = (segments g).length then [RunEvent.meshRebuild r, RunEvent.success r] else []),
   if k + 1 < (segments g).length then [Task.resume r (k + 1)] else [])

/-- Runs one macrotask: a message task performs the grid reset and the
first segment of the requested run immediately (the dispatcher has no
guard), a resume task continues a suspended run. -/
def taskRun (g : Nat) : Task → List RunEvent × List Task
  | .message r => (RunEvent.reset r :: (execSeg g r 0).1, (execSeg g r 0).2)
  | .resume r k => execSeg g r k

/-- FIFO macrotask queue execution with fuel. -/
def runQueue (g : Nat) : Nat → List Task → List RunEvent
  | 0, _ => []
  | _ + 1, [] => []
  | n + 1, t :: ts => (taskRun g t).1 ++ runQueue g n (ts ++ (taskRun g t).2)

/-- Counterexample to C6: in a size-two grid, a second run requested
while the first is suspended at its first yield is dispatched at once:
its grid reset (index 3) lands between cell writes of the first run
(indices 1 and 6), the writes of the two runs interleave, and the
first run rebuilds its mesh (index 16) after the second run has
already overwritten cells (index 10) yet before the second run
finishes writing (index 18).  The second request is neither rejected
nor queued without side effects, and the two runs interleave their
grid mutation and mesh rebuild. -/
theorem c6_counterexample :
    (runQueue 2 12 [Task.message 1, Task.message 2])[1]? = some (RunEvent.write 1 0 0 0) ∧
    (runQueue 2 12 [Task.message 1, Task.message 2])[3]? = some (RunEvent.reset 2) ∧
    (runQueue 2 12 [Task.message 1, Task.message 2])[6]? = some (RunEvent.write 1 0 1 0) ∧
    (runQueue 2 12 [Task.message 1, Task.message 2])[10]? = some (RunEvent.write 2 0 1 0) ∧
    (runQueue 2 12 [Task.message 1, Task.message 2])[16]? = some (RunEvent.meshRebuild 1) ∧
    (runQueue 2 12 [Task.message 1, Task.message 2])[18]? = some (RunEvent.write 2 1 1 0) := by
  refine ⟨by decide, by decide, by decide, by decide, by decide, by decide⟩

/-- C6 amended: the worker dispatcher has no re-entrancy guard: a
runPythonCode message at the head of the queue is executed
immediately, performing the grid reset and the first segment of the
new run regardless of the pending tasks of any in-flight run, and
there is a reachable schedule in which the writes of two runs
interleave.  Re-entrancy is prevented only outside the runner, by the
UI disabling its Run button while a run is marked in flight. -/
theorem c6_no_guard (g r n : Nat) (ts : List Task) :
    runQueue g (n + 1) (Task.message r :: ts) =
      (RunEvent.reset r :: (execSeg g r 0).1) ++ runQueue g n (ts ++ (execSeg g r 0).2) ∧
    ∃ i j k : Nat, i < j ∧ j < k ∧
      (runQueue 2 12 [Task.message 1, Task.message 2])[i]? = some (RunEvent.write 1 0 0 0) ∧
      (runQueue 2 12 [Task.message 1, Task.message 2])[j]? = some (RunEvent.reset 2) ∧
      (runQueue 2 12 [Task.message 1, Task.message 2])[k]? = some (RunEvent.write 1 0 1 0) := by
  refine ⟨rfl, 1, 3, 6, by decide, by decide, by decide, by decide, by decide⟩

/-- Witness for C6 amended: the dispatcher equation at a concrete
queue holding a pending resume of another run. -/
theorem c6_no_guard_witness :
    runQueue 2 3 [Task.message 2, Task.resume 1 1] =
      (RunEvent.reset 2 :: (execSeg 2 2 0).1) ++
        runQueue 2 2 ([Task.resume 1 1] ++ (execSeg 2 2 0).2) :=
  (c6_no_guard 2 2 2 [Task.resume 1 1]).1

end Voxel
